import Mathlib

set_option maxRecDepth 1000000

/-!
# Verification of `homebridge-automation-chromecast` (`src/index.js`)

A shallow embedding of the `AutomationChromecast` accessory class.  The
mutable instance fields become a `ChromecastState` record, the methods become
state-passing functions, and `setTimeout`/`clearTimeout` become explicit
bookkeeping over lists of pending timer entries.

JavaScript numbers holding volume levels are IEEE-754 binary64 floats; they
are modelled exactly as unreduced fractions `ℕ × ℕ` (numerator, denominator),
and the observable arithmetic (`volume / 100`, `this.volume * 100`) is routed
through an exact model of round-to-nearest-even binary64 rounding (`fl64N`),
valid for nonnegative values in the normal range of the format, which covers
every value arising here.
-/

namespace Chromecast

/-! ## Exact model of IEEE-754 binary64 rounding (nonnegative normal range)

For a positive rational `a / b` in the normal range, the nearest double is
obtained by scaling into `[2^52, 2^53)`, rounding to an integer significand
half-to-even, and scaling back. -/

/-- State of the scaling loop: current fraction `a / b` together with the
number of doublings (`up`) and halvings (`down`) applied so far, so that
`a / b = (a₀ / b₀) * 2 ^ up / 2 ^ down`. -/
structure ShiftState where
  a : ℕ
  b : ℕ
  up : ℕ
  down : ℕ
deriving DecidableEq

/-- Scale a positive fraction into `[2^52, 2^53)` by doublings and halvings.
Fuel-bounded structural recursion; the fuel is ample for every magnitude in
the binary64 normal range. -/
def shiftIntoRange : ℕ → ShiftState → ShiftState
  | 0, s => s
  | fuel + 1, s =>
    if s.a < 2 ^ 52 * s.b then shiftIntoRange fuel ⟨2 * s.a, s.b, s.up + 1, s.down⟩
    else if 2 ^ 53 * s.b ≤ s.a then shiftIntoRange fuel ⟨s.a, 2 * s.b, s.up, s.down + 1⟩
    else s

/-- Round the fraction `a / b` (with `a / b ≥ 0`) to the nearest natural
number, ties to even. -/
def roundHalfEven (a b : ℕ) : ℕ :=
  let f := a / b
  let r2 := 2 * (a % b)
  if r2 < b then f
  else if b < r2 then f + 1
  else if f % 2 = 0 then f else f + 1

/-- The binary64 value nearest to the fraction `a / b`, as an exact unreduced
fraction.  Assumes the value is in the nonnegative normal range (or zero);
this covers every volume-level computation of the program. -/
def fl64N (a b : ℕ) : ℕ × ℕ :=
  if a = 0 ∨ b = 0 then (0, 1)
  else
    let s := shiftIntoRange 4400 ⟨a, b, 0, 0⟩
    let n := roundHalfEven s.a s.b
    (n * 2 ^ s.down, 2 ^ s.up)

/-- JavaScript `p / q` on doubles held as exact fractions: the correctly
rounded quotient. -/
def jsDivN (p q : ℕ × ℕ) : ℕ × ℕ := fl64N (p.1 * q.2) (p.2 * q.1)

/-- JavaScript `p * q` on doubles held as exact fractions: the correctly
rounded product. -/
def jsMulN (p q : ℕ × ℕ) : ℕ × ℕ := fl64N (p.1 * q.1) (p.2 * q.2)

/-- `Math.floor` on a nonnegative double held as an exact fraction. -/
def jsFloorN (p : ℕ × ℕ) : ℕ := p.1 / p.2

/-! ## Data model

The mutable fields of the `AutomationChromecast` instance, together with
explicit bookkeeping for the timers created by `setTimeout`.  A pending timer
is an entry `⟨id, fireAt⟩`; `setTimeout` appends a fresh entry and returns its
id, `clearTimeout h` removes the entry whose id is `h` (a no-op when the timer
already fired or `h` is stale). -/

/-- A pending `setTimeout` timer: its handle and its scheduled firing time. -/
structure TimerEntry where
  id : ℕ
  fireAt : ℕ
deriving DecidableEq

/-- Outcome of `clientDisconnect`'s reconnect branch. -/
inductive DisconnectAction
  /-- A retry was scheduled via `setTimeout(…, delayMs)`. -/
  | retryScheduled (delayMs : ℕ)
  /-- `detectChromecast()` was invoked (backoff to re-discovery). -/
  | discovery
  /-- `reconnect` was false: no reconnect activity. -/
  | noReconnect
deriving DecidableEq

/-- The castv2 client object, abstracted to the one behaviour the embedding
observes: whether its `setVolume` call throws synchronously. -/
structure CastClientHandle where
  setVolumeThrows : Bool
deriving DecidableEq

/-- An entry of a device status payload's `applications` array. -/
structure AppSession where
  sessionId : String
  transportId : Option String
deriving DecidableEq

/-- The `volume` object of a device status payload; `level` is `some` exactly
when the `level` key is present (`'level' in status.volume`). -/
structure VolumeStatus where
  level : Option (ℕ × ℕ)
deriving DecidableEq

/-- A device status payload as received by `processClientStatus`:
`applications` is `some` exactly when the field is present (possibly an empty
array), and `volume` is `some` exactly when the field is truthy. -/
structure ClientStatusMsg where
  applications : Option (List AppSession)
  volume : Option VolumeStatus
deriving DecidableEq

/-- A media status payload as received by `processMediaStatus`; `playerState`
is `some` exactly when the field is present. -/
structure MediaStatusMsg where
  playerState : Option String
deriving DecidableEq

/-- A device found by the mdns browser (`serviceUp` event). -/
structure DiscoveredDevice where
  txtFn : String
  txtMd : Option String
  txtId : Option String
  addresses : List String
  port : ℕ
deriving DecidableEq

/-- The mutable instance fields of `AutomationChromecast`, plus the timer
environment (`pendingOffTimers`, `pendingReconnectTimers`, `nextTimerId`) and
a log of the values pushed to the motion sensor characteristic
(`motionLog`). -/
structure ChromecastState where
  chromecastDeviceName : String
  switchOffDelay : ℕ
  chromecastIp : Option String
  chromecastPort : Option ℕ
  chromecastClient : Option CastClientHandle
  isCastingStatus : Bool
  castingApplication : Option AppSession
  castingMedia : Option Unit
  volume : ℕ × ℕ
  deviceType : Option String
  deviceId : Option String
  switchOffDelayTimer : Option ℕ
  reconnectTimer : Option ℕ
  reconnectCounter : ℕ
  pendingOffTimers : List TimerEntry
  pendingReconnectTimers : List TimerEntry
  nextTimerId : ℕ
  motionLog : List Bool
deriving DecidableEq

/-! ## Operations (the methods of `AutomationChromecast`) -/

/-- The `updateMotionSensor` closure inside `setIsCasting`: pushes the
current `isCastingStatus` to the motion sensor characteristic.  It reads
`this.isCastingStatus` at call time. -/
def updateMotionSensor (st : ChromecastState) : ChromecastState :=
  { st with motionLog := st.motionLog ++ [st.isCastingStatus] }

/-- `setIsCasting(statusBool)`: updates the internal state only on a change
of state; on a fall to `false` with a configured `switchOffDelay` it defers
the motion-sensor update via `setTimeout`, otherwise it cancels any timer the
handle still references and updates the sensor immediately. -/
def setIsCasting (now : ℕ) (st : ChromecastState) (statusBool : Bool) : ChromecastState :=
  if statusBool ≠ st.isCastingStatus then
    let st1 := { st with isCastingStatus := statusBool }
    if statusBool = false ∧ st1.switchOffDelay ≠ 0 then
      { st1 with
        pendingOffTimers := st1.pendingOffTimers ++ [⟨st1.nextTimerId, now + st1.switchOffDelay⟩],
        switchOffDelayTimer := some st1.nextTimerId,
        nextTimerId := st1.nextTimerId + 1 }
    else
      let st2 :=
        match st1.switchOffDelayTimer with
        | some tid =>
          { st1 with pendingOffTimers := st1.pendingOffTimers.filter (fun t => t.id ≠ tid) }
        | none => st1
      updateMotionSensor st2
  else st

/-- `resetClient()`: closes the client if one exists (exceptions swallowed;
note the handle is retained), otherwise sets the field to `null`. -/
def resetClient (st : ChromecastState) : ChromecastState :=
  match st.chromecastClient with
  | some _ => st
  | none => { st with chromecastClient := none }

/-- `setDefaultProperties(resetIpAndPort, stopReconnecting)`.  Note that the
switch-off delay timer handle is overwritten with `null` without a
`clearTimeout`, and that `if (!this.reconnectCounter) this.reconnectCounter
= 0` leaves a nonzero counter unchanged. -/
def setDefaultProperties (st : ChromecastState) (resetIpAndPort stopReconnecting : Bool) :
    ChromecastState :=
  let st1 := if resetIpAndPort then { st with chromecastIp := none, chromecastPort := none } else st
  let st2 := resetClient st1
  let st3 := { st2 with
    isCastingStatus := false,
    castingApplication := none,
    castingMedia := none,
    volume := (0, 1),
    deviceType := none,
    deviceId := none,
    switchOffDelayTimer := none }
  let st4 :=
    if stopReconnecting then
      match st3.reconnectTimer with
      | some tid =>
        { st3 with pendingReconnectTimers := st3.pendingReconnectTimers.filter (fun t => t.id ≠ tid) }
      | none => st3
    else st3
  let st5 := { st4 with reconnectTimer := none }
  { st5 with reconnectCounter := if st5.reconnectCounter = 0 then 0 else st5.reconnectCounter }

/-- `clientDisconnect(reconnect)`: reset casting state and properties; when
`reconnect` is set, back off to re-discovery once the counter exceeds 150,
otherwise schedule a single 2000 ms retry. -/
def clientDisconnect (now : ℕ) (st : ChromecastState) (reconnect : Bool) :
    ChromecastState × DisconnectAction :=
  let st1 := setIsCasting now st false
  let st2 := setDefaultProperties st1 false true
  if reconnect then
    if 150 < st2.reconnectCounter then
      (st2, .discovery)
    else
      let st3 :=
        match st2.reconnectTimer with
        | some tid =>
          { st2 with pendingReconnectTimers := st2.pendingReconnectTimers.filter (fun t => t.id ≠ tid) }
        | none => st2
      ({ st3 with
          pendingReconnectTimers := st3.pendingReconnectTimers ++ [⟨st3.nextTimerId, now + 2000⟩],
          reconnectTimer := some st3.nextTimerId,
          nextTimerId := st3.nextTimerId + 1 },
        .retryScheduled 2000)
  else (st2, .noReconnect)

/-- Firing of the reconnect retry timer: increments the reconnect counter;
the returned flag records that `clientConnect()` was invoked. -/
def reconnectTimerFire (st : ChromecastState) (tid : ℕ) : ChromecastState × Bool :=
  if st.pendingReconnectTimers.any (fun t => t.id = tid) then
    ({ st with
        pendingReconnectTimers := st.pendingReconnectTimers.filter (fun t => t.id ≠ tid),
        reconnectCounter := st.reconnectCounter + 1 }, true)
  else (st, false)

/-- Firing of a deferred motion-sensor update timer: reports the casting
status current at firing time (the closure reads `this.isCastingStatus`).
Returns `some reportedValue` when the timer was still pending. -/
def fireOffTimer (st : ChromecastState) (tid : ℕ) : ChromecastState × Option Bool :=
  if st.pendingOffTimers.any (fun t => t.id = tid) then
    ({ updateMotionSensor st with pendingOffTimers := st.pendingOffTimers.filter (fun t => t.id ≠ tid) },
      some st.isCastingStatus)
  else (st, none)

/-- The `serviceUp` handler of `detectChromecast()`: on a case-insensitive
friendly-name match, hard-reset and record the new identity; the returned
flag records that `clientConnect()` was invoked. -/
def detectChromecastServiceUp (st : ChromecastState) (device : DiscoveredDevice) :
    ChromecastState × Bool :=
  if device.txtFn.toLower = st.chromecastDeviceName.toLower then
    let st1 := setDefaultProperties st true true
    let st2 := { st1 with
      chromecastIp := device.addresses.head?,
      chromecastPort := some device.port,
      deviceType := some (device.txtMd.getD ""),
      deviceId := device.txtId }
    (st2, true)
  else (st, false)

/-- Start of `clientConnect()`: `this.chromecastClient = new CastClient()`. -/
def clientConnectStart (st : ChromecastState) (handle : CastClientHandle) : ChromecastState :=
  { st with chromecastClient := some handle }

/-- The connected callback of `clientConnect()` (all channels present):
`this.reconnectCounter = 0`. -/
def clientConnectOnConnected (st : ChromecastState) : ChromecastState :=
  { st with reconnectCounter := 0 }

/-- Result of `processClientStatus`: the new state, whether
`chromecastClient.join` was attempted, and the action of the
`clientDisconnect(true)` issued when the join threw synchronously. -/
structure ClientStatusResult where
  state : ChromecastState
  joinAttempted : Bool
  disconnectAction : Option DisconnectAction
deriving DecidableEq

/-- `processClientStatus(status)` for a non-null `status`.  `joinThrows`
abstracts whether `chromecastClient.join` throws synchronously (e.g.
"Cannot read property 'createChannel' of null").  On a successful join the
media sub-session is only installed later by the asynchronous join callback
(`joinMediaCallback`), so it is not modified here. -/
def processClientStatus (now : ℕ) (st : ChromecastState) (status : ClientStatusMsg)
    (joinThrows : Bool) : ClientStatusResult :=
  let currentApplication : Option AppSession :=
    match status.applications with
    | some apps => apps.head?
    | none => none
  let r1 : ClientStatusResult :=
    match currentApplication with
    | some app =>
      let lastMonitoredApplicationStatusId : Option String :=
        st.castingApplication.map (fun a => a.sessionId)
      if some app.sessionId ≠ lastMonitoredApplicationStatusId then
        let st1 := { st with castingApplication := some { app with transportId := some app.sessionId } }
        if joinThrows then
          let d := clientDisconnect now st1 true
          ⟨d.1, true, some d.2⟩
        else
          ⟨st1, true, none⟩
      else ⟨st, false, none⟩
    | none => ⟨{ st with castingMedia := none }, false, none⟩
  let st2 := if status.applications.isNone then setIsCasting now r1.state false else r1.state
  let st3 :=
    match status.volume with
    | some v =>
      match v.level with
      | some l => { st2 with volume := l }
      | none => st2
    | none => st2
  ⟨st3, r1.joinAttempted, r1.disconnectAction⟩

/-- The asynchronous success callback of `chromecastClient.join`:
`this.castingMedia = media`. -/
def joinMediaCallback (st : ChromecastState) : ChromecastState :=
  { st with castingMedia := some () }

/-- A JavaScript runtime exception. -/
inductive JsError
  | typeError
deriving DecidableEq

/-- `processClientStatus` as actually invocable with a possibly-undefined
argument: `const { applications } = status` throws a `TypeError` when
`status` is `undefined` or `null`. -/
def processClientStatusChecked (now : ℕ) (st : ChromecastState) (status : Option ClientStatusMsg)
    (joinThrows : Bool) : Except JsError ClientStatusResult :=
  match status with
  | none => .error .typeError
  | some s => .ok (processClientStatus now st s joinThrows)

/-- The initial status query callback installed by `clientConnect()`:
`(err, status) => this.processClientStatus(status)` — the error argument is
ignored and the status is passed through unconditionally. -/
def initialStatusCallback (now : ℕ) (st : ChromecastState) (err : Option JsError)
    (status : Option ClientStatusMsg) (joinThrows : Bool) : Except JsError ClientStatusResult :=
  processClientStatusChecked now st status joinThrows

/-- `processMediaStatus(status)`: guarded by the truthiness of `status` and
`status.playerState` (absent or empty-string player state leaves the state
untouched). -/
def processMediaStatus (now : ℕ) (st : ChromecastState) (status : Option MediaStatusMsg) :
    ChromecastState :=
  match status with
  | some ms =>
    match ms.playerState with
    | some ps =>
      if ps ≠ "" then
        if ps = "PLAYING" ∨ ps = "BUFFERING" then setIsCasting now st true
        else setIsCasting now st false
      else st
    | none => st
  | none => st

/-- Observable outcome of a `setVolume` call. -/
structure SetVolumeResult where
  sentLevel : Option (ℕ × ℕ)
  callbackInvoked : Bool
  errorSurfaced : Bool
deriving DecidableEq

/-- `setVolume(volume, callback)`: guarded by `if (this.chromecastClient)` —
when the guard fails nothing at all happens (in particular the callback is
not invoked); otherwise `setVolume({ level: volume / 100 })` is issued, any
synchronous exception is caught and logged, and the callback is invoked. -/
def setVolume (st : ChromecastState) (volume : ℕ) : SetVolumeResult :=
  match st.chromecastClient with
  | none => ⟨none, false, false⟩
  | some c =>
    if c.setVolumeThrows then ⟨none, true, false⟩
    else ⟨some (jsDivN (volume, 1) (100, 1)), true, false⟩

/-- The `Characteristic.Volume` get handler:
`callback(null, Math.floor(this.volume * 100))`. -/
def volumeGetHandler (st : ChromecastState) : ℕ :=
  jsFloorN (jsMulN st.volume (100, 1))

/-! ## Consecutive connection failures

One failed connection attempt = a reconnect-intent disconnect followed, when
a retry was scheduled, by the firing of that retry timer (which increments
the counter and calls `connect()` again). -/

/-- One failed connection attempt (disconnect; fire the retry if one was
scheduled). -/
def failureStep (now : ℕ) (st : ChromecastState) : ChromecastState × DisconnectAction :=
  let d := clientDisconnect now st true
  match d.2, d.1.reconnectTimer with
  | .retryScheduled _, some tid => ((reconnectTimerFire d.1 tid).1, d.2)
  | _, _ => d

/-- State after `n` consecutive failed connection attempts. -/
def failureRun (now : ℕ) (st : ChromecastState) : ℕ → ChromecastState
  | 0 => st
  | n + 1 => (failureStep now (failureRun now st n)).1

/-! ## Concrete states and devices used by witnesses and counterexamples -/

/-- A connected instance: casting, a tracked session `"A"`, a 5-second
switch-off delay, a working client. -/
def sampleState : ChromecastState where
  chromecastDeviceName := "tv"
  switchOffDelay := 5000
  chromecastIp := some "10.0.0.9"
  chromecastPort := some 8009
  chromecastClient := some ⟨false⟩
  isCastingStatus := true
  castingApplication := some ⟨"A", some "A"⟩
  castingMedia := some ()
  volume := (0, 1)
  deviceType := some "Chromecast"
  deviceId := some "id0"
  switchOffDelayTimer := none
  reconnectTimer := none
  reconnectCounter := 0
  pendingOffTimers := []
  pendingReconnectTimers := []
  nextTimerId := 7
  motionLog := []

/-- `sampleState` before any client was ever created. -/
def stNoClient : ChromecastState :=
  { sampleState with chromecastClient := none }

/-- `sampleState` with a reconnect counter past the backoff threshold. -/
def stHighCounter : ChromecastState :=
  { sampleState with reconnectCounter := 160 }

/-- A quiescent instance (not casting, no delay) with reconnect counter 0,
as left by a successful connection. -/
def stAfterConnect : ChromecastState :=
  { sampleState with
      isCastingStatus := false
      switchOffDelay := 0
      reconnectCounter := 0 }

/-- `sampleState` with a live reconnect timer handle. -/
def stWithRec : ChromecastState :=
  { sampleState with reconnectTimer := some 3 }

/-- A discovery announcement whose friendly name matches `sampleState`'s
configured `chromecastDeviceName` verbatim. -/
def sampleDevice : DiscoveredDevice where
  txtFn := "tv"
  txtMd := some "Chromecast"
  txtId := some "devid"
  addresses := ["10.0.0.2"]
  port := 8009

/-! ## Helper lemmas: `setIsCasting` -/

theorem setIsCasting_status (now : ℕ) (st : ChromecastState) (b : Bool) :
    (setIsCasting now st b).isCastingStatus = b := by
  simp only [setIsCasting, updateMotionSensor]
  split
  · split
    · rfl
    · split <;> rfl
  · simp_all

theorem setIsCasting_castingMedia (now : ℕ) (st : ChromecastState) (b : Bool) :
    (setIsCasting now st b).castingMedia = st.castingMedia := by
  simp only [setIsCasting, updateMotionSensor]
  split
  · split
    · rfl
    · split <;> rfl
  · rfl

theorem setIsCasting_castingApplication (now : ℕ) (st : ChromecastState) (b : Bool) :
    (setIsCasting now st b).castingApplication = st.castingApplication := by
  simp only [setIsCasting, updateMotionSensor]
  split
  · split
    · rfl
    · split <;> rfl
  · rfl

theorem setIsCasting_chromecastIp (now : ℕ) (st : ChromecastState) (b : Bool) :
    (setIsCasting now st b).chromecastIp = st.chromecastIp := by
  simp only [setIsCasting, updateMotionSensor]
  split
  · split
    · rfl
    · split <;> rfl
  · rfl

theorem setIsCasting_chromecastPort (now : ℕ) (st : ChromecastState) (b : Bool) :
    (setIsCasting now st b).chromecastPort = st.chromecastPort := by
  simp only [setIsCasting, updateMotionSensor]
  split
  · split
    · rfl
    · split <;> rfl
  · rfl

theorem setIsCasting_chromecastClient (now : ℕ) (st : ChromecastState) (b : Bool) :
    (setIsCasting now st b).chromecastClient = st.chromecastClient := by
  simp only [setIsCasting, updateMotionSensor]
  split
  · split
    · rfl
    · split <;> rfl
  · rfl

theorem setIsCasting_reconnectCounter (now : ℕ) (st : ChromecastState) (b : Bool) :
    (setIsCasting now st b).reconnectCounter = st.reconnectCounter := by
  simp only [setIsCasting, updateMotionSensor]
  split
  · split
    · rfl
    · split <;> rfl
  · rfl

theorem setIsCasting_reconnectTimer (now : ℕ) (st : ChromecastState) (b : Bool) :
    (setIsCasting now st b).reconnectTimer = st.reconnectTimer := by
  simp only [setIsCasting, updateMotionSensor]
  split
  · split
    · rfl
    · split <;> rfl
  · rfl

theorem setIsCasting_pendingReconnectTimers (now : ℕ) (st : ChromecastState) (b : Bool) :
    (setIsCasting now st b).pendingReconnectTimers = st.pendingReconnectTimers := by
  simp only [setIsCasting, updateMotionSensor]
  split
  · split
    · rfl
    · split <;> rfl
  · rfl

theorem setIsCasting_switchOffDelay (now : ℕ) (st : ChromecastState) (b : Bool) :
    (setIsCasting now st b).switchOffDelay = st.switchOffDelay := by
  simp only [setIsCasting, updateMotionSensor]
  split
  · split
    · rfl
    · split <;> rfl
  · rfl

theorem setIsCasting_volume (now : ℕ) (st : ChromecastState) (b : Bool) :
    (setIsCasting now st b).volume = st.volume := by
  simp only [setIsCasting, updateMotionSensor]
  split
  · split
    · rfl
    · split <;> rfl
  · rfl

theorem setIsCasting_nextTimerId_le (now : ℕ) (st : ChromecastState) (b : Bool) :
    st.nextTimerId ≤ (setIsCasting now st b).nextTimerId := by
  simp only [setIsCasting, updateMotionSensor]
  split
  · split
    · exact Nat.le_succ _
    · split <;> exact Nat.le_refl _
  · exact Nat.le_refl _

theorem setIsCasting_pendingOff_mem_of_handle_none (now : ℕ) (st : ChromecastState) (b : Bool)
    (h : st.switchOffDelayTimer = none) :
    ∀ t ∈ st.pendingOffTimers, t ∈ (setIsCasting now st b).pendingOffTimers := by
  intro t ht
  simp only [setIsCasting, updateMotionSensor]
  split
  · split
    · exact List.mem_append_left _ ht
    · split
      · simp_all
      · exact ht
  · exact ht

theorem setIsCasting_pendingOff_mem_of_delay (now : ℕ) (st : ChromecastState)
    (h : st.switchOffDelay ≠ 0) :
    ∀ t ∈ st.pendingOffTimers, t ∈ (setIsCasting now st false).pendingOffTimers := by
  intro t ht
  simp only [setIsCasting, updateMotionSensor]
  split
  · split
    · exact List.mem_append_left _ ht
    · simp_all
  · exact ht

/-! ## Helper lemmas: `resetClient` and `setDefaultProperties` -/

theorem resetClient_eq (st : ChromecastState) : resetClient st = st := by
  simp only [resetClient]
  split
  · rfl
  · next h => rw [← h]

theorem sdp_cleared (st : ChromecastState) (a b : Bool) :
    (setDefaultProperties st a b).isCastingStatus = false ∧
    (setDefaultProperties st a b).castingApplication = none ∧
    (setDefaultProperties st a b).castingMedia = none ∧
    (setDefaultProperties st a b).volume = (0, 1) ∧
    (setDefaultProperties st a b).deviceType = none ∧
    (setDefaultProperties st a b).deviceId = none ∧
    (setDefaultProperties st a b).switchOffDelayTimer = none ∧
    (setDefaultProperties st a b).reconnectTimer = none := by
  cases a <;> cases b <;> cases hrt : st.reconnectTimer <;>
    simp_all [setDefaultProperties, resetClient_eq]

theorem sdp_reconnectCounter (st : ChromecastState) (a b : Bool) :
    (setDefaultProperties st a b).reconnectCounter = st.reconnectCounter := by
  cases a <;> cases b <;> cases hrt : st.reconnectTimer <;>
    simp_all [setDefaultProperties, resetClient_eq] <;>
    split <;> simp_all

theorem sdp_ip_preserved (st : ChromecastState) (b : Bool) :
    (setDefaultProperties st false b).chromecastIp = st.chromecastIp ∧
    (setDefaultProperties st false b).chromecastPort = st.chromecastPort := by
  cases b <;> cases hrt : st.reconnectTimer <;>
    simp_all [setDefaultProperties, resetClient_eq]

theorem sdp_ip_cleared (st : ChromecastState) (b : Bool) :
    (setDefaultProperties st true b).chromecastIp = none ∧
    (setDefaultProperties st true b).chromecastPort = none := by
  cases b <;> cases hrt : st.reconnectTimer <;>
    simp_all [setDefaultProperties, resetClient_eq]

theorem sdp_nextTimerId (st : ChromecastState) (a b : Bool) :
    (setDefaultProperties st a b).nextTimerId = st.nextTimerId := by
  cases a <;> cases b <;> cases hrt : st.reconnectTimer <;>
    simp_all [setDefaultProperties, resetClient_eq]

theorem sdp_pendingOffTimers (st : ChromecastState) (a b : Bool) :
    (setDefaultProperties st a b).pendingOffTimers = st.pendingOffTimers := by
  cases a <;> cases b <;> cases hrt : st.reconnectTimer <;>
    simp_all [setDefaultProperties, resetClient_eq]

theorem sdp_pendingRec_mem (st : ChromecastState) (a b : Bool) :
    ∀ t ∈ (setDefaultProperties st a b).pendingReconnectTimers, t ∈ st.pendingReconnectTimers := by
  intro t ht
  cases a <;> cases b <;> cases hrt : st.reconnectTimer <;>
    simp_all [setDefaultProperties, resetClient_eq, List.mem_filter]

theorem sdp_pendingRec_of_none (st : ChromecastState) (a b : Bool)
    (h : st.reconnectTimer = none) :
    (setDefaultProperties st a b).pendingReconnectTimers = st.pendingReconnectTimers := by
  cases a <;> cases b <;>
    simp_all [setDefaultProperties, resetClient_eq]

theorem sdp_pendingRec_stopped (st : ChromecastState) (a : Bool) (tid : ℕ)
    (h : st.reconnectTimer = some tid) :
    ∀ t ∈ (setDefaultProperties st a true).pendingReconnectTimers, t.id ≠ tid := by
  intro t ht
  cases a <;>
    simp_all [setDefaultProperties, resetClient_eq, List.mem_filter]

/-! ## Helper lemmas: `clientDisconnect` -/

theorem cd_state_cleared (now : ℕ) (st : ChromecastState) (r : Bool) :
    (clientDisconnect now st r).1.isCastingStatus = false ∧
    (clientDisconnect now st r).1.castingApplication = none ∧
    (clientDisconnect now st r).1.castingMedia = none ∧
    (clientDisconnect now st r).1.volume = (0, 1) ∧
    (clientDisconnect now st r).1.deviceType = none ∧
    (clientDisconnect now st r).1.deviceId = none ∧
    (clientDisconnect now st r).1.switchOffDelayTimer = none := by
  obtain ⟨c1, c2, c3, c4, c5, c6, c7, c8⟩ := sdp_cleared (setIsCasting now st false) false true
  simp only [clientDisconnect, c8]
  split <;> (try split) <;> exact ⟨c1, c2, c3, c4, c5, c6, c7⟩

theorem cd_ip (now : ℕ) (st : ChromecastState) (r : Bool) :
    (clientDisconnect now st r).1.chromecastIp = st.chromecastIp ∧
    (clientDisconnect now st r).1.chromecastPort = st.chromecastPort := by
  obtain ⟨i1, i2⟩ := sdp_ip_preserved (setIsCasting now st false) true
  rw [setIsCasting_chromecastIp] at i1
  rw [setIsCasting_chromecastPort] at i2
  have c8 := (sdp_cleared (setIsCasting now st false) false true).2.2.2.2.2.2.2
  simp only [clientDisconnect, c8]
  split <;> (try split) <;> exact ⟨i1, i2⟩

theorem cd_counter (now : ℕ) (st : ChromecastState) (r : Bool) :
    (clientDisconnect now st r).1.reconnectCounter = st.reconnectCounter := by
  have hc : (setDefaultProperties (setIsCasting now st false) false true).reconnectCounter =
      st.reconnectCounter := by
    rw [sdp_reconnectCounter, setIsCasting_reconnectCounter]
  have c8 := (sdp_cleared (setIsCasting now st false) false true).2.2.2.2.2.2.2
  simp only [clientDisconnect, c8]
  split <;> (try split) <;> exact hc

theorem cd_action_le (now : ℕ) (st : ChromecastState) (h : st.reconnectCounter ≤ 150) :
    (clientDisconnect now st true).2 = DisconnectAction.retryScheduled 2000 := by
  have hc : (setDefaultProperties (setIsCasting now st false) false true).reconnectCounter =
      st.reconnectCounter := by
    rw [sdp_reconnectCounter, setIsCasting_reconnectCounter]
  have c8 := (sdp_cleared (setIsCasting now st false) false true).2.2.2.2.2.2.2
  simp only [clientDisconnect, c8, hc, if_true]
  rw [if_neg (by omega)]

theorem cd_action_gt (now : ℕ) (st : ChromecastState) (h : 150 < st.reconnectCounter) :
    (clientDisconnect now st true).2 = DisconnectAction.discovery := by
  have hc : (setDefaultProperties (setIsCasting now st false) false true).reconnectCounter =
      st.reconnectCounter := by
    rw [sdp_reconnectCounter, setIsCasting_reconnectCounter]
  simp only [clientDisconnect, hc, if_true]
  rw [if_pos h]

theorem cd_retry_sched (now : ℕ) (st : ChromecastState) (h : st.reconnectCounter ≤ 150) :
    ∃ tid rest,
      (clientDisconnect now st true).1.reconnectTimer = some tid ∧
      (clientDisconnect now st true).1.pendingReconnectTimers = rest ++ [⟨tid, now + 2000⟩] ∧
      ∀ t ∈ rest, t ∈ st.pendingReconnectTimers := by
  have hc : (setDefaultProperties (setIsCasting now st false) false true).reconnectCounter =
      st.reconnectCounter := by
    rw [sdp_reconnectCounter, setIsCasting_reconnectCounter]
  have c8 := (sdp_cleared (setIsCasting now st false) false true).2.2.2.2.2.2.2
  refine ⟨(setDefaultProperties (setIsCasting now st false) false true).nextTimerId,
    (setDefaultProperties (setIsCasting now st false) false true).pendingReconnectTimers,
    ?_, ?_, ?_⟩
  · simp only [clientDisconnect, c8, hc, if_true]
    rw [if_neg (by omega)]
  · simp only [clientDisconnect, c8, hc, if_true]
    rw [if_neg (by omega)]
  · intro t ht
    have := sdp_pendingRec_mem (setIsCasting now st false) false true t ht
    rwa [setIsCasting_pendingReconnectTimers] at this

theorem cd_pendingOff (now : ℕ) (st : ChromecastState) (r : Bool)
    (h : st.switchOffDelay ≠ 0) :
    ∀ t ∈ st.pendingOffTimers, t ∈ (clientDisconnect now st r).1.pendingOffTimers := by
  intro t ht
  have h1 := setIsCasting_pendingOff_mem_of_delay now st h t ht
  have h2 : (setDefaultProperties (setIsCasting now st false) false true).pendingOffTimers =
      (setIsCasting now st false).pendingOffTimers := sdp_pendingOffTimers _ _ _
  have c8 := (sdp_cleared (setIsCasting now st false) false true).2.2.2.2.2.2.2
  simp only [clientDisconnect, c8]
  split <;> (try split) <;> (rw [h2]; exact h1)

theorem cd_nextTimerId_ge (now : ℕ) (st : ChromecastState) (r : Bool) :
    st.nextTimerId ≤ (clientDisconnect now st r).1.nextTimerId := by
  have h1 := setIsCasting_nextTimerId_le now st false
  have h2 : (setDefaultProperties (setIsCasting now st false) false true).nextTimerId =
      (setIsCasting now st false).nextTimerId := sdp_nextTimerId _ _ _
  have c8 := (sdp_cleared (setIsCasting now st false) false true).2.2.2.2.2.2.2
  simp only [clientDisconnect, c8]
  split <;> (try split) <;> simp only [h2] <;> omega

theorem cd_stop_timer (now : ℕ) (st : ChromecastState) (r : Bool) (tid : ℕ)
    (h : st.reconnectTimer = some tid) (hf : tid < st.nextTimerId) :
    ∀ t ∈ (clientDisconnect now st r).1.pendingReconnectTimers, t.id ≠ tid := by
  intro t
  have h1 : (setIsCasting now st false).reconnectTimer = some tid := by
    rw [setIsCasting_reconnectTimer]; exact h
  have hstop := sdp_pendingRec_stopped (setIsCasting now st false) false tid h1
  have c8 := (sdp_cleared (setIsCasting now st false) false true).2.2.2.2.2.2.2
  have hn : tid < (setDefaultProperties (setIsCasting now st false) false true).nextTimerId := by
    rw [sdp_nextTimerId]
    exact Nat.lt_of_lt_of_le hf (setIsCasting_nextTimerId_le now st false)
  simp only [clientDisconnect, c8]
  split <;> (try split)
  · exact hstop t
  · intro ht
    rcases List.mem_append.mp ht with hin | hnew
    · exact hstop t hin
    · have : t = ⟨(setDefaultProperties (setIsCasting now st false) false true).nextTimerId,
          now + 2000⟩ := by simpa using hnew
      subst this
      dsimp only
      omega
  · exact hstop t

/-! ## Helper lemmas: discovery, scheduling, the volume table -/

theorem serviceUp_match (st : ChromecastState) (device : DiscoveredDevice)
    (h : device.txtFn.toLower = st.chromecastDeviceName.toLower) :
    detectChromecastServiceUp st device =
      ({ setDefaultProperties st true true with
          chromecastIp := device.addresses.head?,
          chromecastPort := some device.port,
          deviceType := some (device.txtMd.getD ""),
          deviceId := device.txtId }, true) := by
  simp only [detectChromecastServiceUp]
  rw [if_pos h]

theorem setIsCasting_schedule (now : ℕ) (st : ChromecastState)
    (hd : st.switchOffDelay ≠ 0) (hc : st.isCastingStatus = true) :
    (setIsCasting now st false).switchOffDelayTimer = some st.nextTimerId ∧
    (setIsCasting now st false).pendingOffTimers =
      st.pendingOffTimers ++ [⟨st.nextTimerId, now + st.switchOffDelay⟩] := by
  simp [setIsCasting, hc, hd]

theorem volume_round_trip_table :
    ∀ x < 101, jsFloorN (jsMulN (jsDivN (x, 1) (100, 1)) (100, 1)) =
      (if x = 29 ∨ x = 57 ∨ x = 58 then x - 1 else x) := by decide

/-! ## Helper lemmas: consecutive failures -/

theorem cd_reconnectTimer_gt (now : ℕ) (st : ChromecastState)
    (h : 150 < st.reconnectCounter) :
    (clientDisconnect now st true).1.reconnectTimer = none := by
  have hc : (setDefaultProperties (setIsCasting now st false) false true).reconnectCounter =
      st.reconnectCounter := by
    rw [sdp_reconnectCounter, setIsCasting_reconnectCounter]
  have c8 := (sdp_cleared (setIsCasting now st false) false true).2.2.2.2.2.2.2
  simp only [clientDisconnect, hc, if_true]
  rw [if_pos h]
  exact c8

theorem failureStep_le (now : ℕ) (st : ChromecastState) (h : st.reconnectCounter ≤ 150) :
    (failureStep now st).1.reconnectCounter = st.reconnectCounter + 1 ∧
    (failureStep now st).2 = DisconnectAction.retryScheduled 2000 := by
  have ha := cd_action_le now st h
  obtain ⟨tid, rest, hrt, hpend, -⟩ := cd_retry_sched now st h
  have hcnt := cd_counter now st true
  have hany : ((clientDisconnect now st true).1.pendingReconnectTimers.any
      (fun t => t.id = tid)) = true := by
    rw [hpend]; simp
  simp only [failureStep, ha, hrt, reconnectTimerFire, hany, if_true]
  exact ⟨by rw [hcnt], trivial⟩

theorem failureStep_gt (now : ℕ) (st : ChromecastState) (h : 150 < st.reconnectCounter) :
    (failureStep now st).1.reconnectCounter = st.reconnectCounter ∧
    (failureStep now st).2 = DisconnectAction.discovery := by
  have ha := cd_action_gt now st h
  have hrt := cd_reconnectTimer_gt now st h
  have hcnt := cd_counter now st true
  simp only [failureStep, ha, hrt]
  exact ⟨by rw [hcnt], trivial⟩

theorem failureRun_counter (now : ℕ) (st : ChromecastState) (h0 : st.reconnectCounter = 0) :
    ∀ n, n ≤ 151 → (failureRun now st n).reconnectCounter = n := by
  intro n
  induction n with
  | zero => intro _; simpa [failureRun]
  | succ k ih =>
    intro hk
    have hck := ih (by omega)
    have hle : (failureRun now st k).reconnectCounter ≤ 150 := by omega
    have hstep := (failureStep_le now (failureRun now st k) hle).1
    simp [failureRun, hstep, hck]

/-! ## Claims -/

/-- Claim C1 (confirmed): from a successful connection (counter 0), every
reconnect-intent disconnect with counter at most 150 schedules exactly one
retry 2000 ms later whose firing increments the counter and invokes
`connect()`; with counter above 150 it runs discovery instead.  Hence after
exactly 151 consecutive failures the next failure re-discovers, while the
150th (indeed every failure up to the 151st) still schedules a retry. -/
theorem claim1_reconnect_backoff (now : ℕ) (st : ChromecastState)
    (h0 : st.reconnectCounter = 0) :
    (∀ st2 : ChromecastState, st2.reconnectCounter ≤ 150 →
      (clientDisconnect now st2 true).2 = DisconnectAction.retryScheduled 2000 ∧
      ∃ tid rest,
        (clientDisconnect now st2 true).1.reconnectTimer = some tid ∧
        (clientDisconnect now st2 true).1.pendingReconnectTimers =
          rest ++ [⟨tid, now + 2000⟩] ∧
        ∀ t ∈ rest, t ∈ st2.pendingReconnectTimers) ∧
    (∀ st2 : ChromecastState, 150 < st2.reconnectCounter →
      (clientDisconnect now st2 true).2 = DisconnectAction.discovery) ∧
    (∀ st2 : ChromecastState, ∀ tid : ℕ,
      (st2.pendingReconnectTimers.any (fun t => t.id = tid)) = true →
      (reconnectTimerFire st2 tid).1.reconnectCounter = st2.reconnectCounter + 1 ∧
      (reconnectTimerFire st2 tid).2 = true) ∧
    (∀ n, n ≤ 151 → (failureRun now st n).reconnectCounter = n) ∧
    (∀ n, n < 151 →
      (failureStep now (failureRun now st n)).2 = DisconnectAction.retryScheduled 2000) ∧
    (failureStep now (failureRun now st 151)).2 = DisconnectAction.discovery := by
  refine ⟨?_, ?_, ?_, failureRun_counter now st h0, ?_, ?_⟩
  · intro st2 h
    exact ⟨cd_action_le now st2 h, cd_retry_sched now st2 h⟩
  · intro st2 h
    exact cd_action_gt now st2 h
  · intro st2 tid h
    simp [reconnectTimerFire, h]
  · intro n hn
    have hcnt := failureRun_counter now st h0 n (by omega)
    exact (failureStep_le now _ (by omega)).2
  · have hcnt := failureRun_counter now st h0 151 (by omega)
    exact (failureStep_gt now _ (by omega)).2

/-- Witness for C1: from the concrete post-connection state, the failure
after 151 consecutive failures triggers re-discovery. -/
theorem claim1_witness :
    (failureStep 0 (failureRun 0 stAfterConnect 151)).2 = DisconnectAction.discovery :=
  (claim1_reconnect_backoff 0 stAfterConnect rfl).2.2.2.2.2

/-- Claim C2 (confirmed): an entirely absent `applications` field forces
`isCasting` to false (and clears the media sub-session); a present-but-empty
list clears the media sub-session but leaves `isCastingStatus` exactly as it
was. -/
theorem claim2_applications_absent_vs_empty (now : ℕ) (st : ChromecastState) (jt : Bool)
    (vol : Option VolumeStatus) :
    ((processClientStatus now st ⟨none, vol⟩ jt).state.isCastingStatus = false ∧
     (processClientStatus now st ⟨none, vol⟩ jt).state.castingMedia = none) ∧
    ((processClientStatus now st ⟨some [], vol⟩ jt).state.castingMedia = none ∧
     (processClientStatus now st ⟨some [], vol⟩ jt).state.isCastingStatus =
       st.isCastingStatus) := by
  rcases vol with _ | ⟨_ | lvl⟩ <;>
    simp [processClientStatus, setIsCasting_status, setIsCasting_castingMedia]

/-- Claim C3 counterexample: a media status whose `playerState` field is
absent leaves the state untouched — with the casting state previously true it
stays true, not false as the claim requires. -/
theorem claim3_counterexample :
    processMediaStatus 0 sampleState (some ⟨none⟩) = sampleState ∧
    sampleState.isCastingStatus = true :=
  ⟨rfl, rfl⟩

/-- Claim C3 (corrected): a present, non-empty `playerState` of `PLAYING` or
`BUFFERING` sets casting true and any other present, non-empty value sets it
false; but an absent (or empty-string) `playerState`, or a null status,
leaves the state unchanged rather than setting casting false. -/
theorem claim3_amended_player_state (now : ℕ) (st : ChromecastState) :
    (∀ ps : String, ps ≠ "" → (ps = "PLAYING" ∨ ps = "BUFFERING") →
      (processMediaStatus now st (some ⟨some ps⟩)).isCastingStatus = true) ∧
    (∀ ps : String, ps ≠ "" → ¬(ps = "PLAYING" ∨ ps = "BUFFERING") →
      (processMediaStatus now st (some ⟨some ps⟩)).isCastingStatus = false) ∧
    processMediaStatus now st (some ⟨none⟩) = st ∧
    processMediaStatus now st (some ⟨some ""⟩) = st ∧
    processMediaStatus now st none = st := by
  refine ⟨?_, ?_, rfl, by simp [processMediaStatus], rfl⟩
  · intro ps hne hpb
    simp only [processMediaStatus]
    rw [if_pos hne, if_pos hpb]
    exact setIsCasting_status now st true
  · intro ps hne hnpb
    simp only [processMediaStatus]
    rw [if_pos hne, if_neg hnpb]
    exact setIsCasting_status now st false

/-- Witness for C3: concrete player states settle the casting state as the
amended claim says. -/
theorem claim3_witness :
    (processMediaStatus 0 sampleState (some ⟨some "PLAYING"⟩)).isCastingStatus = true ∧
    (processMediaStatus 0 sampleState (some ⟨some "IDLE"⟩)).isCastingStatus = false :=
  ⟨(claim3_amended_player_state 0 sampleState).1 "PLAYING" (by decide) (Or.inl rfl),
   (claim3_amended_player_state 0 sampleState).2.1 "IDLE" (by decide) (by decide)⟩

/-- Claim C4 (confirmed): with a first application entry present, the tracked
session is replaced (and a join attempted) exactly when the candidate's
session id differs from the tracked one or nothing is tracked; a repeat of
the same id replaces nothing, and on replacement the candidate's transport id
is overwritten with its session id before attaching. -/
theorem claim4_session_replacement (now : ℕ) (st : ChromecastState)
    (vol : Option VolumeStatus) (app : AppSession) (rest : List AppSession) :
    ((processClientStatus now st ⟨some (app :: rest), vol⟩ false).joinAttempted = true ↔
      some app.sessionId ≠ st.castingApplication.map (fun a => a.sessionId)) ∧
    (some app.sessionId ≠ st.castingApplication.map (fun a => a.sessionId) →
      (processClientStatus now st ⟨some (app :: rest), vol⟩ false).state.castingApplication =
        some { app with transportId := some app.sessionId }) ∧
    (some app.sessionId = st.castingApplication.map (fun a => a.sessionId) →
      (processClientStatus now st ⟨some (app :: rest), vol⟩ false).state.castingApplication =
        st.castingApplication ∧
      (processClientStatus now st ⟨some (app :: rest), vol⟩ false).joinAttempted = false) := by
  rcases vol with _ | ⟨_ | lvl⟩ <;>
    by_cases hcond : some app.sessionId ≠ st.castingApplication.map (fun a => a.sessionId) <;>
    simp_all [processClientStatus]

/-- Witness for C4: a push with a fresh session id `"B"` replaces the tracked
session `"A"` and overwrites the transport id. -/
theorem claim4_witness :
    (processClientStatus 0 sampleState ⟨some [⟨"B", none⟩], none⟩ false).state.castingApplication =
      some ⟨"B", some "B"⟩ :=
  (claim4_session_replacement 0 sampleState none ⟨"B", none⟩ []).2.1 (by decide)

/-- Claim C5 counterexample: with no client, `setVolume` silently does
nothing — in particular the completion callback is NOT invoked, contradicting
the claim that the callback always completes. -/
theorem claim5_counterexample :
    (setVolume stNoClient 50).callbackInvoked = false := rfl

/-- Claim C5 (corrected): with no client `setVolume` sends nothing and does
NOT invoke the callback (the guard skips the whole body); with a client the
callback is always invoked, a non-throwing send carries level `target/100`,
and no error ever surfaces. -/
theorem claim5_amended_set_volume (st : ChromecastState) (target : ℕ) :
    (st.chromecastClient = none → setVolume st target = ⟨none, false, false⟩) ∧
    (∀ c : CastClientHandle, st.chromecastClient = some c →
      (setVolume st target).callbackInvoked = true ∧
      (c.setVolumeThrows = false →
        (setVolume st target).sentLevel = some (jsDivN (target, 1) (100, 1)))) ∧
    (setVolume st target).errorSurfaced = false := by
  rcases hc : st.chromecastClient with _ | c
  · simp [setVolume, hc]
  · rcases ht : c.setVolumeThrows <;> simp_all [setVolume]

/-- Witness for C5: with `sampleState`'s working client a volume command is
sent and the callback is invoked. -/
theorem claim5_witness :
    (setVolume sampleState 50).callbackInvoked = true ∧
    (setVolume sampleState 50).sentLevel = some (jsDivN (50, 1) (100, 1)) := by
  have h := (claim5_amended_set_volume sampleState 50).2.1 ⟨false⟩ rfl
  exact ⟨h.1, h.2 rfl⟩

/-- Claim C7 counterexample: after a disconnect of `sampleState` the stored
address and port are still present, not null as the claim requires. -/
theorem claim7_counterexample :
    (clientDisconnect 0 sampleState true).1.chromecastIp ≠ none ∧
    (clientDisconnect 0 sampleState true).1.chromecastPort ≠ none := by
  decide

/-- Claim C7 (corrected): every disconnect sets casting false, clears the
application/media/volume/device-type/device-id sub-state and the switch-off
timer handle, and stops a pending reconnect timer — but the stored address
and port are preserved, not cleared (`setDefaultProperties` is called with
`resetIpAndPort = false`). -/
theorem claim7_amended_disconnect_frame (now : ℕ) (st : ChromecastState) (r : Bool) :
    (clientDisconnect now st r).1.isCastingStatus = false ∧
    (clientDisconnect now st r).1.castingApplication = none ∧
    (clientDisconnect now st r).1.castingMedia = none ∧
    (clientDisconnect now st r).1.volume = (0, 1) ∧
    (clientDisconnect now st r).1.deviceType = none ∧
    (clientDisconnect now st r).1.deviceId = none ∧
    (clientDisconnect now st r).1.switchOffDelayTimer = none ∧
    (clientDisconnect now st r).1.chromecastIp = st.chromecastIp ∧
    (clientDisconnect now st r).1.chromecastPort = st.chromecastPort ∧
    (∀ tid : ℕ, st.reconnectTimer = some tid → tid < st.nextTimerId →
      ∀ t ∈ (clientDisconnect now st r).1.pendingReconnectTimers, t.id ≠ tid) := by
  obtain ⟨a1, a2, a3, a4, a5, a6, a7⟩ := cd_state_cleared now st r
  obtain ⟨b1, b2⟩ := cd_ip now st r
  exact ⟨a1, a2, a3, a4, a5, a6, a7, b1, b2,
    fun tid h hf => cd_stop_timer now st r tid h hf⟩

/-- Witness for C7: the reconnect timer `3` pending before the disconnect is
stopped — the retry entry created afterwards has the fresh id `8`. -/
theorem claim7_witness :
    (⟨8, 2003⟩ : TimerEntry).id ≠ 3 :=
  (claim7_amended_disconnect_frame 3 stWithRec true).2.2.2.2.2.2.2.2.2 3 rfl (by decide)
    ⟨8, 2003⟩ (by decide)

/-- Claim C9 (confirmed): the status handler throws a `TypeError` on an
undefined status (the initial query callback ignores the error argument and
passes the status straight through), and never throws on a non-null status
object. -/
theorem claim9_status_precondition (now : ℕ) (st : ChromecastState) (jt : Bool) :
    (∀ e : Option JsError,
      initialStatusCallback now st e none jt = Except.error JsError.typeError) ∧
    (∀ s : ClientStatusMsg, ∃ r,
      processClientStatusChecked now st (some s) jt = Except.ok r) :=
  ⟨fun _ => rfl, fun _ => ⟨_, rfl⟩⟩

/-- Claim C6 counterexample: a matching announcement with the reconnect
counter at 160 leaves the counter at 160 — the "hard reset" does not zero it
(`if (!this.reconnectCounter) this.reconnectCounter = 0` keeps a nonzero
value), contradicting the claim that the counter is 0 at the start of the
ensuing connection attempt. -/
theorem claim6_counterexample :
    (detectChromecastServiceUp stHighCounter sampleDevice).2 = true ∧
    (detectChromecastServiceUp stHighCounter sampleDevice).1.reconnectCounter = 160 := by
  rw [serviceUp_match stHighCounter sampleDevice rfl]
  refine ⟨rfl, ?_⟩
  show (setDefaultProperties stHighCounter true true).reconnectCounter = 160
  rw [sdp_reconnectCounter]
  rfl

/-- Claim C6 (corrected): on a case-insensitive name match the handler
resets (clearing the application/media/casting sub-state, the timer handles
and a pending reconnect timer), records the announced address, port, device
type and device id, and invokes `connect()` — but the reconnect counter is
NOT zeroed by the reset: it keeps its prior value, and only the connected
callback of a successful connection sets it to 0. -/
theorem claim6_amended_discovery_reset (st : ChromecastState) (device : DiscoveredDevice)
    (h : device.txtFn.toLower = st.chromecastDeviceName.toLower) :
    (detectChromecastServiceUp st device).2 = true ∧
    (detectChromecastServiceUp st device).1.chromecastIp = device.addresses.head? ∧
    (detectChromecastServiceUp st device).1.chromecastPort = some device.port ∧
    (detectChromecastServiceUp st device).1.deviceType = some (device.txtMd.getD "") ∧
    (detectChromecastServiceUp st device).1.deviceId = device.txtId ∧
    (detectChromecastServiceUp st device).1.reconnectTimer = none ∧
    (detectChromecastServiceUp st device).1.isCastingStatus = false ∧
    (detectChromecastServiceUp st device).1.castingApplication = none ∧
    (detectChromecastServiceUp st device).1.castingMedia = none ∧
    (∀ tid : ℕ, st.reconnectTimer = some tid →
      ∀ t ∈ (detectChromecastServiceUp st device).1.pendingReconnectTimers, t.id ≠ tid) ∧
    (detectChromecastServiceUp st device).1.reconnectCounter = st.reconnectCounter ∧
    (clientConnectOnConnected (detectChromecastServiceUp st device).1).reconnectCounter = 0 := by
  rw [serviceUp_match st device h]
  obtain ⟨c1, c2, c3, c4, c5, c6, c7, c8⟩ := sdp_cleared st true true
  refine ⟨rfl, rfl, rfl, rfl, rfl, c8, c1, c2, c3, ?_, ?_, rfl⟩
  · intro tid htid t ht
    exact sdp_pendingRec_stopped st true tid htid t ht
  · show (setDefaultProperties st true true).reconnectCounter = st.reconnectCounter
    exact sdp_reconnectCounter st true true

/-- Witness for C6: the matching announcement records its first address. -/
theorem claim6_witness :
    (detectChromecastServiceUp sampleState sampleDevice).1.chromecastIp = some "10.0.0.2" := by
  have h := (claim6_amended_discovery_reset sampleState sampleDevice rfl).2.1
  rw [h]
  rfl

/-- Claim C8 counterexample: `setVolume(29)` followed by the status push of
level `29/100` displays 28, not 29 — binary64 rounding makes
`0.29 * 100 = 28.999999999999996`, which floors to 28. -/
theorem claim8_counterexample :
    volumeGetHandler
        (processClientStatus 0 sampleState
          ⟨none, some ⟨some (jsDivN (29, 1) (100, 1))⟩⟩ false).state = 28 ∧
    (28 : ℕ) ≠ 29 := by
  constructor
  · show jsFloorN (jsMulN (jsDivN (29, 1) (100, 1)) (100, 1)) = 28
    decide
  · decide

/-- Claim C8 (corrected): for an integer volume `x ≤ 100`, `setVolume(x)`
sends the double `x/100` and a status push reporting that level makes the
getter display `Math.floor(level * 100)`; this round-trip returns `x` for
every `x` except 29, 57 and 58, where binary64 rounding makes the product
fall just below `x` and the floor semantics (floor, not round — e.g. a level
of 0.567 displays as 56) yield `x - 1`. -/
theorem claim8_amended_volume_round_trip (x : ℕ) (hx : x ≤ 100) (now : ℕ)
    (st : ChromecastState) (jt : Bool) (c : CastClientHandle)
    (hc : st.chromecastClient = some c) (hthrow : c.setVolumeThrows = false) :
    (setVolume st x).sentLevel = some (jsDivN (x, 1) (100, 1)) ∧
    volumeGetHandler
        (processClientStatus now st ⟨none, some ⟨some (jsDivN (x, 1) (100, 1))⟩⟩ jt).state =
      (if x = 29 ∨ x = 57 ∨ x = 58 then x - 1 else x) := by
  constructor
  · simp [setVolume, hc, hthrow]
  · show jsFloorN (jsMulN (jsDivN (x, 1) (100, 1)) (100, 1)) =
      (if x = 29 ∨ x = 57 ∨ x = 58 then x - 1 else x)
    exact volume_round_trip_table x (by omega)

/-- Witness for C8: the round-trip at 42 sends level `42/100` and displays
42. -/
theorem claim8_witness :
    (setVolume sampleState 42).sentLevel = some (jsDivN (42, 1) (100, 1)) ∧
    volumeGetHandler
        (processClientStatus 0 sampleState
          ⟨none, some ⟨some (jsDivN (42, 1) (100, 1))⟩⟩ false).state = 42 := by
  have h := claim8_amended_volume_round_trip 42 (by decide) 0 sampleState false ⟨false⟩ rfl rfl
  refine ⟨h.1, ?_⟩
  rw [h.2]
  decide

/-- Claim C10 (confirmed): every disconnect nulls the switch-off delay timer
handle without cancelling the pending timer; so when a true-to-false casting
transition with a positive configured delay schedules a deferred
motion-sensor update and a disconnect happens before it fires, the timer
entry survives (at its original firing time), no later `setIsCasting`
transition can cancel it, and its firing reports the casting status current
at firing time. -/
theorem claim10_orphaned_off_timer (now : ℕ) (st : ChromecastState)
    (hd : st.switchOffDelay ≠ 0) (hc : st.isCastingStatus = true) :
    (∀ st0 : ChromecastState, ∀ now2 : ℕ, ∀ r : Bool, st0.switchOffDelay ≠ 0 →
      (clientDisconnect now2 st0 r).1.switchOffDelayTimer = none ∧
      ∀ t ∈ st0.pendingOffTimers, t ∈ (clientDisconnect now2 st0 r).1.pendingOffTimers) ∧
    (setIsCasting now st false).switchOffDelayTimer = some st.nextTimerId ∧
    (⟨st.nextTimerId, now + st.switchOffDelay⟩ : TimerEntry) ∈
      (setIsCasting now st false).pendingOffTimers ∧
    (∀ now2 : ℕ, ∀ r : Bool,
      (clientDisconnect now2 (setIsCasting now st false) r).1.switchOffDelayTimer = none ∧
      (⟨st.nextTimerId, now + st.switchOffDelay⟩ : TimerEntry) ∈
        (clientDisconnect now2 (setIsCasting now st false) r).1.pendingOffTimers ∧
      (∀ now3 : ℕ, ∀ b : Bool,
        (⟨st.nextTimerId, now + st.switchOffDelay⟩ : TimerEntry) ∈
          (setIsCasting now3 (clientDisconnect now2 (setIsCasting now st false) r).1
            b).pendingOffTimers) ∧
      (fireOffTimer (clientDisconnect now2 (setIsCasting now st false) r).1
          st.nextTimerId).2 =
        some (clientDisconnect now2 (setIsCasting now st false) r).1.isCastingStatus) := by
  obtain ⟨hsch, hpend⟩ := setIsCasting_schedule now st hd hc
  have hmem1 : (⟨st.nextTimerId, now + st.switchOffDelay⟩ : TimerEntry) ∈
      (setIsCasting now st false).pendingOffTimers := by
    rw [hpend]; simp
  have hdelay1 : (setIsCasting now st false).switchOffDelay ≠ 0 := by
    rw [setIsCasting_switchOffDelay]; exact hd
  refine ⟨?_, hsch, hmem1, ?_⟩
  · intro st0 now2 r h0
    exact ⟨(cd_state_cleared now2 st0 r).2.2.2.2.2.2, cd_pendingOff now2 st0 r h0⟩
  · intro now2 r
    have hhandle := (cd_state_cleared now2 (setIsCasting now st false) r).2.2.2.2.2.2
    have hmem2 := cd_pendingOff now2 (setIsCasting now st false) r hdelay1 _ hmem1
    refine ⟨hhandle, hmem2, ?_, ?_⟩
    · intro now3 b
      exact setIsCasting_pendingOff_mem_of_handle_none now3 _ b hhandle _ hmem2
    · have hany : ((clientDisconnect now2 (setIsCasting now st false) r).1.pendingOffTimers.any
          (fun t => t.id = st.nextTimerId)) = true :=
        List.any_eq_true.mpr ⟨_, hmem2, by simp⟩
      simp only [fireOffTimer, hany, if_true]

/-- Witness for C10: from `sampleState` (casting, 5-second delay), the off
timer scheduled by the fall to false survives the disconnect while the stored
handle is null. -/
theorem claim10_witness :
    (clientDisconnect 1 (setIsCasting 0 sampleState false) true).1.switchOffDelayTimer = none ∧
    (⟨7, 5000⟩ : TimerEntry) ∈
      (clientDisconnect 1 (setIsCasting 0 sampleState false) true).1.pendingOffTimers := by
  have h := (claim10_orphaned_off_timer 0 sampleState (by decide) rfl).2.2.2 1 true
  exact ⟨h.1, by simpa [sampleState] using h.2.1⟩

end Chromecast